import Mathlib

/-!
Verification development for the `install_opencv.py` build-automation script.

The script is shallowly embedded as pure Lean functions.  Observable behavior
is modelled as a trace of events (printed messages, invoked shell commands,
working-directory changes, interactive prompts) together with a final process
outcome.  Interaction with the operating system (directory changes, `realpath`,
`makedirs`, file existence, JSON parsing of the options file, standard input)
is abstracted into an `Env` record of oracles; everything else is translated
directly from the source.

Key modelling decisions, each mirroring a specific line of the source:
- `subprocess.call` never has its exit status inspected, so a command
  invocation is a single trace event carrying the exact command string that
  the script printed just before invoking it.
- `sys.exit()` is called with no argument in the source, which terminates the
  Python process with exit status 0; this is the `Outcome.exited0` outcome.
- an exception that no handler catches (EOFError escaping `input()`, or a
  `json.load` failure) terminates the process with a traceback and a non-zero
  status; this is the `Outcome.uncaught` outcome.
- `traceback.format_exc()` output is runtime-dependent text; it is abstracted
  as the fixed string `tracebackText`.
-/

set_option maxRecDepth 8192

namespace InstallOpencv

/-- The module-level constant DEFAULT_BUILD_OPTIONS of the script, as an
ordered association list in the order of the Python dict literal (Python
dicts preserve insertion order). -/
def DEFAULT_BUILD_OPTIONS : List (String × String) :=
  [("CMAKE_BUILD_TYPE", "RELEASE"),
   ("CMAKE_INSTALL_PREFIX", "/usr/local"),
   ("INSTALL_C_EXAMPLES", "OFF"),
   ("INSTALL_PYTHON_EXAMPLES", "OFF"),
   ("BUILD_OPENCV_PYTHON2", "ON"),
   ("PYTHON2_INCLUDE_DIR", "/usr/include/python2.7"),
   ("BUILD_EXAMPLES", "OFF")]

/-- One observable event of a run: a printed message, a shell command
invocation (the script prints the command line and then executes it), an
attempted working-directory change, or an interactive input prompt. -/
inductive Event where
  | msg (s : String)
  | cmd (s : String)
  | cd (dirpath : String)
  | prompt (s : String)
deriving DecidableEq, Repr

/-- How the process ends: normal fall-through (status 0), a bare
`sys.exit()` (also status 0), or an uncaught exception (non-zero status). -/
inductive Outcome where
  | finished
  | exited0
  | uncaught
deriving DecidableEq, Repr

/-- The numeric exit status of each outcome.  A bare `sys.exit()` in Python
exits with status 0; an uncaught exception exits with status 1. -/
def exitStatus : Outcome → Nat
  | Outcome.finished => 0
  | Outcome.exited0 => 0
  | Outcome.uncaught => 1

/-- Possible results of `os.makedirs`: success, `FileExistsError`
(tolerated by the script), or any other exception (fatal path). -/
inductive MkdirRes where
  | ok
  | already
  | fail
deriving DecidableEq, Repr

/-- The operating-system oracles the script interacts with.  `stdin` is the
line `input()` would return (`none` models a failed read, i.e. `EOFError`).
`fileJson` is the result of `json.load` on a file (`none` models invalid
JSON, raising an exception). -/
structure Env where
  chdirOk : String → Bool
  realpath : String → String
  mkdirResult : String → MkdirRes
  fileExists : String → Bool
  fileJson : String → Option (List (String × String))
  cwd : String
  stdin : Option String

/-- The parsed argparse namespace: fields and their meanings follow
`parse_command_line_args` in the source. -/
structure Args where
  tag : String
  force : Bool
  build_dir : String
  prereqs : Bool
  build_options_file : String
deriving DecidableEq, Repr

/-- A command line: which flags were passed and with what values.  `none`
for an optional value means the flag was absent. -/
structure CmdLine where
  tagOpt : Option String
  forceFlag : Bool
  buildDirOpt : Option String
  prereqsFlag : Bool
  buildOptionsFileOpt : Option String

/-- The argparse layer: `--tag` defaults to "3.3.1", `--force` is
`store_true` (default false), `--build-dir` defaults to `os.getcwd()`,
`--prereqs` is `store_false` (default true, passing the flag sets false),
`--build-options-file` defaults to the empty string. -/
def parse_command_line_args (cwd : String) (cl : CmdLine) : Args :=
  { tag := cl.tagOpt.getD "3.3.1"
  , force := cl.forceFlag
  , build_dir := cl.buildDirOpt.getD cwd
  , prereqs := !cl.prereqsFlag
  , build_options_file := cl.buildOptionsFileOpt.getD "" }

/-- Stand-in for the runtime-dependent text of `traceback.format_exc()`. -/
def tracebackText : String := "<traceback>"

/-- The `call` helper: print the command line, then execute it with
`subprocess.call` (exit status ignored).  One `Event.cmd` carries both. -/
def call (command : String) : List Event := [Event.cmd command]

/-- The `chdir` helper: try `os.chdir`; on failure print a diagnostic plus
the traceback and call bare `sys.exit()` (signalled by the `false` flag). -/
def chdir (env : Env) (dirpath : String) : List Event × Bool :=
  if env.chdirOk dirpath then
    ([Event.cd dirpath], true)
  else
    ([Event.cd dirpath,
      Event.msg ("ERROR: Couldn\x27t chdir into " ++ dirpath ++ ". Exiting."),
      Event.msg tracebackText], false)

/-- Whether a path string ends with the path separator. -/
def endsWithSlash (s : String) : Bool := s.data.getLast? == some '/'

/-- `os.path.join a b` for a relative component `b`: `b` if `a` is empty,
plain concatenation if `a` already ends with the separator, otherwise a
separator is inserted. -/
def pathJoin (a b : String) : String :=
  if a = "" then b
  else if endsWithSlash a then a ++ b
  else a ++ "/" ++ b

/-- The `dirs` dictionary computed at the top of `install_opencv`:
root (realpath of the build dir), the opencv checkout dir, the build dir. -/
structure Dirs where
  root : String
  opencv : String
  build : String
deriving DecidableEq, Repr

/-- Computes the three derived directories from `args.build_dir`, exactly as
`install_opencv` does with `os.path.realpath` and `os.path.join`. -/
def dirsOf (env : Env) (build_dir : String) : Dirs :=
  { root := env.realpath build_dir
  , opencv := pathJoin (env.realpath build_dir) "opencv"
  , build := pathJoin (pathJoin (env.realpath build_dir) "opencv") "build" }

/-- Result of the confirmation gate: proceed to the pipeline, return early
(clean abort), or an exception escaping `input()` (uncaught). -/
inductive GateResult where
  | proceed
  | cleanAbort
  | uncaught
deriving DecidableEq, Repr

/-- The confirmation gate of `install_opencv` (the `if not args.force`
block).  `input()` sits outside the `try`, so a failed read (`none`) is an
uncaught exception.  On an empty line, `proceed[0]` raises `IndexError`,
which the bare `except` catches, printing and returning.  Otherwise the
first character of the raw line, lower-cased, is compared with the letter y;
no whitespace trimming happens anywhere. -/
def confirmationGate (stdin : Option String) : List Event × GateResult :=
  let pr := [Event.prompt "Proceed with the installation? "]
  match stdin with
  | none => (pr, GateResult.uncaught)
  | some line =>
    match line.data with
    | [] => (pr ++ [Event.msg "Exiting (exception)", Event.msg tracebackText],
             GateResult.cleanAbort)
    | c :: _ =>
      if c.toLower = 'y' then (pr, GateResult.proceed)
      else (pr ++ [Event.msg "Exiting."], GateResult.cleanAbort)

/-- `os.path.exists`: the empty path never exists; otherwise ask the
filesystem oracle. -/
def os_path_exists (env : Env) (path : String) : Bool :=
  if path = "" then false else env.fileExists path

/-- The option-loading part of `configure_build`: start from the empty dict,
replace it with the parsed file contents when the file exists (a `json.load`
failure, modelled by `none`, escapes uncaught), and fall back to
DEFAULT_BUILD_OPTIONS when the resulting dict is empty. -/
def load_build_options (env : Env) (build_options_file : String) :
    Option (List (String × String)) :=
  if os_path_exists env build_options_file then
    match env.fileJson build_options_file with
    | none => none
    | some m => if m.length = 0 then some DEFAULT_BUILD_OPTIONS else some m
  else
    some DEFAULT_BUILD_OPTIONS

/-- The `args_string` accumulation loop of `configure_build`: starting from
the empty string, append "-D key=value " for every option in order. -/
def args_string (build_options : List (String × String)) : String :=
  build_options.foldl
    (fun acc kv => acc ++ ("-D " ++ kv.1 ++ "=" ++ kv.2 ++ " ")) ""

/-- The generator command line built by `configure_build`:
`'cmake {} ..'.format(args_string)`, i.e. "cmake ", the accumulated flag
string (which itself ends with a space), a space, and the parent-directory
source directive. -/
def cmake_call (build_options : List (String × String)) : String :=
  "cmake " ++ args_string build_options ++ " .."

/-- The audit printout of the effective build options in `configure_build`. -/
def buildOptionsMsgs (build_options : List (String × String)) : List Event :=
  Event.msg "Building OpenCV with the following options:"
    :: (build_options.map (fun kv => Event.msg (kv.1 ++ ": " ++ kv.2))
        ++ [Event.msg "\n"])

/-- The `download_source` stage: enter root, clone, enter the checkout,
check out the tag, return to root.  Any failed `chdir` ends the process via
bare `sys.exit()`. -/
def download_source (env : Env) (tag : String) (dirs : Dirs) :
    List Event × Option Outcome :=
  let ev0 := [Event.msg "Downloading source..."]
  match chdir env dirs.root with
  | (evs, false) => (ev0 ++ evs, some Outcome.exited0)
  | (evs, true) =>
    let ev1 := ev0 ++ evs ++ call "git clone https://github.com/Itseez/opencv.git"
    match chdir env dirs.opencv with
    | (evs2, false) => (ev1 ++ evs2, some Outcome.exited0)
    | (evs2, true) =>
      let ev2 := ev1 ++ evs2 ++ call ("git checkout tags/" ++ tag)
      match chdir env dirs.root with
      | (evs3, false) => (ev2 ++ evs3, some Outcome.exited0)
      | (evs3, true) => (ev2 ++ evs3, none)

/-- The `configure_build` stage: `os.makedirs` tolerating `FileExistsError`
(any other failure prints a diagnostic and exits), `chdir` into the build
dir, load the options, print them, and invoke the generator. -/
def configure_build (env : Env) (args : Args) (dirs : Dirs) :
    List Event × Option Outcome :=
  match env.mkdirResult dirs.build with
  | MkdirRes.fail =>
      ([Event.msg "ERROR: Couldn\x27t create the build directory. Exiting.",
        Event.msg tracebackText], some Outcome.exited0)
  | _ =>
    match chdir env dirs.build with
    | (cevs, false) => (cevs, some Outcome.exited0)
    | (cevs, true) =>
      match load_build_options env args.build_options_file with
      | none => (cevs, some Outcome.uncaught)
      | some build_options =>
          (cevs ++ buildOptionsMsgs build_options
                ++ call (cmake_call build_options), none)

/-- The `build` stage: re-enter the build dir and run make with the fixed
three-core hint. -/
def build (env : Env) (dirs : Dirs) : List Event × Option Outcome :=
  match chdir env dirs.build with
  | (evs, false) => (evs, some Outcome.exited0)
  | (evs, true) => (evs ++ call "make -j 3", none)

/-- The `install` stage: re-enter the build dir, privileged install, then
linker-cache refresh. -/
def install (env : Env) (dirs : Dirs) : List Event × Option Outcome :=
  match chdir env dirs.build with
  | (evs, false) => (evs, some Outcome.exited0)
  | (evs, true) => (evs ++ call "sudo make install" ++ call "sudo ldconfig", none)

/-- How Python prints a bool. -/
def pyBoolStr (b : Bool) : String := if b then "True" else "False"

/-- The printout of the selected installation options at the top of
`install_opencv` (`vars(args).items()`, in argparse declaration order). -/
def selectedOptionsMsgs (args : Args) : List Event :=
  [Event.msg "\nSelected installation options: ",
   Event.msg ("tag: " ++ args.tag),
   Event.msg ("force: " ++ pyBoolStr args.force),
   Event.msg ("build_dir: " ++ args.build_dir),
   Event.msg ("prereqs: " ++ pyBoolStr args.prereqs),
   Event.msg ("build_options_file: " ++ args.build_options_file),
   Event.msg "\n"]

/-- The four pipeline stages after the confirmation gate, chained so that a
stage signalling termination (`some o`) stops the run. -/
def pipelineAfterGate (env : Env) (args : Args) : List Event × Outcome :=
  let dirs := dirsOf env args.build_dir
  let s1 := download_source env args.tag dirs
  match s1.2 with
  | some o => (s1.1, o)
  | none =>
    let s2 := configure_build env args dirs
    match s2.2 with
    | some o => (s1.1 ++ s2.1, o)
    | none =>
      let s3 := build env dirs
      match s3.2 with
      | some o => (s1.1 ++ s2.1 ++ s3.1, o)
      | none =>
        let s4 := install env dirs
        match s4.2 with
        | some o => (s1.1 ++ s2.1 ++ s3.1 ++ s4.1, o)
        | none => (s1.1 ++ s2.1 ++ s3.1 ++ s4.1, Outcome.finished)

/-- The `install_opencv` function: print the selected options, run the
confirmation gate unless `force` is set, then run the pipeline. -/
def install_opencv (env : Env) (args : Args) : List Event × Outcome :=
  let hdr := selectedOptionsMsgs args
  if args.force then
    (hdr ++ (pipelineAfterGate env args).1, (pipelineAfterGate env args).2)
  else
    let g := confirmationGate env.stdin
    match g.2 with
    | GateResult.uncaught => (hdr ++ g.1, Outcome.uncaught)
    | GateResult.cleanAbort => (hdr ++ g.1, Outcome.finished)
    | GateResult.proceed =>
        (hdr ++ g.1 ++ (pipelineAfterGate env args).1,
         (pipelineAfterGate env args).2)

/-- The package list of `install_prereqs`. -/
def aptInstallCmd : String :=
  "sudo apt-get install build-essential cmake git pkg-config libjpeg8-dev libjasper-dev libpng12-dev libgtk2.0-dev libavcodec-dev libavformat-dev libswscale-dev libv4l-dev libatlas-base-dev gfortran python-dev python-numpy python3-dev python3-numpy"

/-- The `install_prereqs` function: announce, then refresh the package
index, upgrade, and install the fixed package list. -/
def install_prereqs : List Event :=
  Event.msg "Installing prerequisites..."
    :: (call "sudo apt-get update" ++ call "sudo apt-get upgrade"
        ++ call aptInstallCmd)

/-- The `__main__` block: parse the command line, run the prerequisite
installer when `args.prereqs` is true, then run `install_opencv`. -/
def runProgram (env : Env) (cl : CmdLine) : List Event × Outcome :=
  let args := parse_command_line_args env.cwd cl
  let pre := if args.prereqs then install_prereqs else []
  let r := install_opencv env args
  (pre ++ r.1, r.2)

/-- The shell-command invocations of a trace, in order. -/
def commandsOf (evs : List Event) : List String :=
  evs.filterMap (fun e => match e with | Event.cmd s => some s | _ => none)

/-- The attempted working-directory changes of a trace, in order. -/
def cdTargetsOf (evs : List Event) : List String :=
  evs.filterMap (fun e => match e with | Event.cd d => some d | _ => none)

/-- The first character of a line after trimming leading whitespace,
lower-cased; `none` when the trimmed line is empty.  This formalises the
wording of the specification sentence about the confirmation gate
(trimming trailing whitespace cannot change the first character). -/
def firstTrimmedLower (line : String) : Option Char :=
  ((line.data.dropWhile (fun c => c.isWhitespace)).head?).map Char.toLower

/-- The confirmation-gate semantics exactly as the specification states
them: proceed iff the first character of the trimmed input, lower-cased, is
the letter y; every other input, including a failed read, is a clean
abort. -/
def gateSpecC2 (stdin : Option String) : GateResult :=
  match stdin with
  | none => GateResult.cleanAbort
  | some line =>
    match firstTrimmedLower line with
    | none => GateResult.cleanAbort
    | some c => if c = 'y' then GateResult.proceed else GateResult.cleanAbort

/-- Whether Python's `str.isspace()` (and hence the no-argument
`str.split()`) treats a character as whitespace: CPython's
Py_UNICODE_ISSPACE set, i.e. U+0009..U+000D, U+001C..U+001F, U+0020,
U+0085, U+00A0, U+1680, U+2000..U+200A, U+2028, U+2029, U+202F, U+205F
and U+3000. -/
def pyWhitespace (c : Char) : Bool :=
  decide ((0x09 ≤ c.toNat ∧ c.toNat ≤ 0x0d) ∨ (0x1c ≤ c.toNat ∧ c.toNat ≤ 0x1f) ∨
    c.toNat = 0x20 ∨ c.toNat = 0x85 ∨ c.toNat = 0xa0 ∨ c.toNat = 0x1680 ∨
    (0x2000 ≤ c.toNat ∧ c.toNat ≤ 0x200a) ∨ c.toNat = 0x2028 ∨ c.toNat = 0x2029 ∨
    c.toNat = 0x202f ∨ c.toNat = 0x205f ∨ c.toNat = 0x3000)

/-- Splits a character list at every Python-whitespace character, keeping
empty chunks. -/
def splitSp : List Char → List (List Char)
  | [] => [[]]
  | c :: cs =>
    if pyWhitespace c then [] :: splitSp cs
    else
      match splitSp cs with
      | [] => [[c]]
      | w :: ws => (c :: w) :: ws

/-- Splits a character list at Python whitespace and drops the empty
chunks, i.e. the words of the list. -/
def wtokens (l : List Char) : List (List Char) :=
  (splitSp l).filter (fun w => !w.isEmpty)

/-- The whitespace tokenization Python performs in the no-argument
`str.split()` (and `command.split()` inside `call`): split at every run of
Python-whitespace characters and drop empty chunks. -/
def pyTokens (s : String) : List String :=
  (wtokens s.data).map (fun w => String.mk w)

/-- The full event trace of a run of the post-gate pipeline in which every
directory change succeeds, the build directory is created (or already
exists), and the effective build options resolve to `bo`. -/
def happyTrace (env : Env) (args : Args) (bo : List (String × String)) : List Event :=
  [Event.msg "Downloading source...", Event.cd (dirsOf env args.build_dir).root,
   Event.cmd "git clone https://github.com/Itseez/opencv.git",
   Event.cd (dirsOf env args.build_dir).opencv,
   Event.cmd ("git checkout tags/" ++ args.tag),
   Event.cd (dirsOf env args.build_dir).root,
   Event.cd (dirsOf env args.build_dir).build]
  ++ buildOptionsMsgs bo
  ++ [Event.cmd (cmake_call bo),
      Event.cd (dirsOf env args.build_dir).build, Event.cmd "make -j 3",
      Event.cd (dirsOf env args.build_dir).build, Event.cmd "sudo make install",
      Event.cmd "sudo ldconfig"]

/-- One "-D key=value " segment of the accumulated flag string. -/
def seg (kv : String × String) : String :=
  "-D " ++ kv.1 ++ "=" ++ kv.2 ++ " "

/-- The flag string as a straightforward recursion, one segment per option
in order (proved equal to the foldl accumulation of `args_string`). -/
def segJoin : List (String × String) → String
  | [] => ""
  | kv :: r => seg kv ++ segJoin r

/-- The two whitespace-separated tokens one build option contributes to the
generator command line: the flag "-D" and the key=value word. -/
def entryTokens (kv : String × String) : List (List Char) :=
  [['-', 'D'], kv.1.data ++ '=' :: kv.2.data]

/-- A concrete environment for witnesses: every directory change succeeds,
`realpath` is the identity, `makedirs` succeeds, no file exists, every JSON
load fails, and standard input is at end of file. -/
def testEnv : Env :=
  { chdirOk := fun _ => true
  , realpath := fun s => s
  , mkdirResult := fun _ => MkdirRes.ok
  , fileExists := fun _ => false
  , fileJson := fun _ => none
  , cwd := "/home/user"
  , stdin := none }

/-! ### String helper lemmas -/

theorem str_head_ne (a b : String) (c d : Char) (la lb : List Char)
    (ha : a.data = c :: la) (hb : b.data = d :: lb) (hcd : c ≠ d) : a ≠ b := by
  intro h
  rw [h, hb] at ha
  exact hcd (List.head_eq_of_cons_eq ha.symm)

theorem checkout_data (t : String) :
    ("git checkout tags/" ++ t).data =
      'g' :: ("it checkout tags/".data ++ t.data) := by
  rw [String.data_append,
      show "git checkout tags/".data = 'g' :: "it checkout tags/".data from rfl,
      List.cons_append]

theorem cmake_call_data (bo : List (String × String)) :
    ∃ l, (cmake_call bo).data = 'c' :: l := by
  refine ⟨"make ".data ++ ((args_string bo).data ++ " ..".data), ?_⟩
  show (("cmake " ++ args_string bo) ++ " ..").data = _
  rw [String.data_append, String.data_append,
      show "cmake ".data = 'c' :: "make ".data from rfl]
  simp

theorem checkout_ne (t b : String) (d : Char) (lb : List Char)
    (hb : b.data = d :: lb) (hd : 'g' ≠ d) : ("git checkout tags/" ++ t) ≠ b :=
  str_head_ne _ _ 'g' d _ lb (checkout_data t) hb hd

theorem cmake_call_ne (bo : List (String × String)) (b : String) (d : Char)
    (lb : List Char) (hb : b.data = d :: lb) (hd : 'c' ≠ d) :
    cmake_call bo ≠ b := by
  obtain ⟨l, hl⟩ := cmake_call_data bo
  exact str_head_ne _ _ 'c' d l lb hl hb hd

/-! ### Trace observation lemmas -/

@[simp] theorem commandsOf_nil : commandsOf [] = [] := rfl

@[simp] theorem commandsOf_cons_msg (s : String) (l : List Event) :
    commandsOf (Event.msg s :: l) = commandsOf l := rfl

@[simp] theorem commandsOf_cons_cd (s : String) (l : List Event) :
    commandsOf (Event.cd s :: l) = commandsOf l := rfl

@[simp] theorem commandsOf_cons_prompt (s : String) (l : List Event) :
    commandsOf (Event.prompt s :: l) = commandsOf l := rfl

@[simp] theorem commandsOf_cons_cmd (s : String) (l : List Event) :
    commandsOf (Event.cmd s :: l) = s :: commandsOf l := rfl

@[simp] theorem commandsOf_append (l1 l2 : List Event) :
    commandsOf (l1 ++ l2) = commandsOf l1 ++ commandsOf l2 :=
  List.filterMap_append l1 l2 _

@[simp] theorem cdTargetsOf_nil : cdTargetsOf [] = [] := rfl

@[simp] theorem cdTargetsOf_cons_msg (s : String) (l : List Event) :
    cdTargetsOf (Event.msg s :: l) = cdTargetsOf l := rfl

@[simp] theorem cdTargetsOf_cons_cd (s : String) (l : List Event) :
    cdTargetsOf (Event.cd s :: l) = s :: cdTargetsOf l := rfl

@[simp] theorem cdTargetsOf_cons_prompt (s : String) (l : List Event) :
    cdTargetsOf (Event.prompt s :: l) = cdTargetsOf l := rfl

@[simp] theorem cdTargetsOf_cons_cmd (s : String) (l : List Event) :
    cdTargetsOf (Event.cmd s :: l) = cdTargetsOf l := rfl

@[simp] theorem cdTargetsOf_append (l1 l2 : List Event) :
    cdTargetsOf (l1 ++ l2) = cdTargetsOf l1 ++ cdTargetsOf l2 :=
  List.filterMap_append l1 l2 _

@[simp] theorem commandsOf_selectedOptionsMsgs (args : Args) :
    commandsOf (selectedOptionsMsgs args) = [] := rfl

@[simp] theorem cdTargetsOf_selectedOptionsMsgs (args : Args) :
    cdTargetsOf (selectedOptionsMsgs args) = [] := rfl

@[simp] theorem commandsOf_optMsgs (bo : List (String × String)) :
    commandsOf (bo.map (fun kv => Event.msg (kv.1 ++ ": " ++ kv.2))) = [] := by
  induction bo with
  | nil => rfl
  | cons kv r ih => simpa using ih

@[simp] theorem cdTargetsOf_optMsgs (bo : List (String × String)) :
    cdTargetsOf (bo.map (fun kv => Event.msg (kv.1 ++ ": " ++ kv.2))) = [] := by
  induction bo with
  | nil => rfl
  | cons kv r ih => simpa using ih

@[simp] theorem commandsOf_buildOptionsMsgs (bo : List (String × String)) :
    commandsOf (buildOptionsMsgs bo) = [] := by
  simp [buildOptionsMsgs]

@[simp] theorem cdTargetsOf_buildOptionsMsgs (bo : List (String × String)) :
    cdTargetsOf (buildOptionsMsgs bo) = [] := by
  simp [buildOptionsMsgs]

theorem commandsOf_gate (st : Option String) :
    commandsOf (confirmationGate st).1 = [] := by
  cases st with
  | none => rfl
  | some line =>
    cases hld : line.data with
    | nil => simp [confirmationGate, hld]
    | cons c cs =>
      by_cases hc : c.toLower = 'y' <;> simp [confirmationGate, hld, hc]

/-! ### Stage computation lemmas -/

theorem download_source_ok (env : Env) (tag : String) (dirs : Dirs)
    (h1 : env.chdirOk dirs.root = true) (h2 : env.chdirOk dirs.opencv = true) :
    download_source env tag dirs =
      ([Event.msg "Downloading source...", Event.cd dirs.root,
        Event.cmd "git clone https://github.com/Itseez/opencv.git",
        Event.cd dirs.opencv, Event.cmd ("git checkout tags/" ++ tag),
        Event.cd dirs.root], none) := by
  simp [download_source, chdir, h1, h2, call]

theorem download_source_rootfail (env : Env) (tag : String) (dirs : Dirs)
    (h1 : env.chdirOk dirs.root = false) :
    download_source env tag dirs =
      ([Event.msg "Downloading source...", Event.cd dirs.root,
        Event.msg ("ERROR: Couldn\x27t chdir into " ++ dirs.root ++ ". Exiting."),
        Event.msg tracebackText], some Outcome.exited0) := by
  simp [download_source, chdir, h1]

theorem configure_build_ok (env : Env) (args : Args) (dirs : Dirs)
    (bo : List (String × String))
    (hmk : env.mkdirResult dirs.build ≠ MkdirRes.fail)
    (h3 : env.chdirOk dirs.build = true)
    (hbo : load_build_options env args.build_options_file = some bo) :
    configure_build env args dirs =
      (Event.cd dirs.build ::
        (buildOptionsMsgs bo ++ [Event.cmd (cmake_call bo)]), none) := by
  cases hm : env.mkdirResult dirs.build with
  | fail => exact absurd hm hmk
  | ok => simp [configure_build, hm, chdir, h3, hbo, call]
  | already => simp [configure_build, hm, chdir, h3, hbo, call]

theorem configure_build_mkfail (env : Env) (args : Args) (dirs : Dirs)
    (hmk : env.mkdirResult dirs.build = MkdirRes.fail) :
    configure_build env args dirs =
      ([Event.msg "ERROR: Couldn\x27t create the build directory. Exiting.",
        Event.msg tracebackText], some Outcome.exited0) := by
  simp [configure_build, hmk]

theorem configure_build_badjson (env : Env) (args : Args) (dirs : Dirs)
    (hmk : env.mkdirResult dirs.build ≠ MkdirRes.fail)
    (h3 : env.chdirOk dirs.build = true)
    (hbo : load_build_options env args.build_options_file = none) :
    configure_build env args dirs = ([Event.cd dirs.build], some Outcome.uncaught) := by
  cases hm : env.mkdirResult dirs.build with
  | fail => exact absurd hm hmk
  | ok => simp [configure_build, hm, chdir, h3, hbo]
  | already => simp [configure_build, hm, chdir, h3, hbo]

theorem build_ok (env : Env) (dirs : Dirs) (h3 : env.chdirOk dirs.build = true) :
    build env dirs = ([Event.cd dirs.build, Event.cmd "make -j 3"], none) := by
  simp [build, chdir, h3, call]

theorem install_ok (env : Env) (dirs : Dirs) (h3 : env.chdirOk dirs.build = true) :
    install env dirs =
      ([Event.cd dirs.build, Event.cmd "sudo make install",
        Event.cmd "sudo ldconfig"], none) := by
  simp [install, chdir, h3, call]

theorem pipelineAfterGate_happy (env : Env) (args : Args)
    (bo : List (String × String))
    (h1 : env.chdirOk (dirsOf env args.build_dir).root = true)
    (h2 : env.chdirOk (dirsOf env args.build_dir).opencv = true)
    (h3 : env.chdirOk (dirsOf env args.build_dir).build = true)
    (hmk : env.mkdirResult (dirsOf env args.build_dir).build ≠ MkdirRes.fail)
    (hbo : load_build_options env args.build_options_file = some bo) :
    pipelineAfterGate env args = (happyTrace env args bo, Outcome.finished) := by
  simp [pipelineAfterGate,
        download_source_ok env args.tag (dirsOf env args.build_dir) h1 h2,
        configure_build_ok env args (dirsOf env args.build_dir) bo hmk h3 hbo,
        build_ok env (dirsOf env args.build_dir) h3,
        install_ok env (dirsOf env args.build_dir) h3, happyTrace]

theorem install_opencv_happy (env : Env) (args : Args)
    (bo : List (String × String)) (hforce : args.force = true)
    (h1 : env.chdirOk (dirsOf env args.build_dir).root = true)
    (h2 : env.chdirOk (dirsOf env args.build_dir).opencv = true)
    (h3 : env.chdirOk (dirsOf env args.build_dir).build = true)
    (hmk : env.mkdirResult (dirsOf env args.build_dir).build ≠ MkdirRes.fail)
    (hbo : load_build_options env args.build_options_file = some bo) :
    install_opencv env args =
      (selectedOptionsMsgs args ++ happyTrace env args bo, Outcome.finished) := by
  simp [install_opencv, hforce,
        pipelineAfterGate_happy env args bo h1 h2 h3 hmk hbo]

theorem commandsOf_happyTrace (env : Env) (args : Args)
    (bo : List (String × String)) :
    commandsOf (happyTrace env args bo) =
      ["git clone https://github.com/Itseez/opencv.git",
       "git checkout tags/" ++ args.tag, cmake_call bo, "make -j 3",
       "sudo make install", "sudo ldconfig"] := by
  simp [happyTrace]

theorem cdTargetsOf_happyTrace (env : Env) (args : Args)
    (bo : List (String × String)) :
    cdTargetsOf (happyTrace env args bo) =
      [(dirsOf env args.build_dir).root, (dirsOf env args.build_dir).opencv,
       (dirsOf env args.build_dir).root, (dirsOf env args.build_dir).build,
       (dirsOf env args.build_dir).build, (dirsOf env args.build_dir).build] := by
  simp [happyTrace]

/-! ### Which commands can appear in a trace at all -/

theorem download_source_cmds (env : Env) (tag : String) (dirs : Dirs) (s : String)
    (hs : s ∈ commandsOf (download_source env tag dirs).1) :
    s = "git clone https://github.com/Itseez/opencv.git" ∨
    s = "git checkout tags/" ++ tag := by
  cases h1 : env.chdirOk dirs.root with
  | false => simp [download_source, chdir, h1] at hs
  | true =>
    cases h2 : env.chdirOk dirs.opencv with
    | false =>
      simp [download_source, chdir, h1, h2, call] at hs
      exact Or.inl hs
    | true =>
      simp [download_source, chdir, h1, h2, call] at hs
      exact hs

theorem configure_build_cmds (env : Env) (args : Args) (dirs : Dirs) (s : String)
    (hs : s ∈ commandsOf (configure_build env args dirs).1) :
    ∃ bo, s = cmake_call bo := by
  cases hm : env.mkdirResult dirs.build with
  | fail => simp [configure_build, hm] at hs
  | ok =>
    cases h3 : env.chdirOk dirs.build with
    | false => simp [configure_build, hm, chdir, h3] at hs
    | true =>
      cases hbo : load_build_options env args.build_options_file with
      | none => simp [configure_build, hm, chdir, h3, hbo] at hs
      | some bo =>
        simp [configure_build, hm, chdir, h3, hbo, call] at hs
        exact ⟨bo, hs⟩
  | already =>
    cases h3 : env.chdirOk dirs.build with
    | false => simp [configure_build, hm, chdir, h3] at hs
    | true =>
      cases hbo : load_build_options env args.build_options_file with
      | none => simp [configure_build, hm, chdir, h3, hbo] at hs
      | some bo =>
        simp [configure_build, hm, chdir, h3, hbo, call] at hs
        exact ⟨bo, hs⟩

theorem build_cmds (env : Env) (dirs : Dirs) (s : String)
    (hs : s ∈ commandsOf (build env dirs).1) : s = "make -j 3" := by
  cases h3 : env.chdirOk dirs.build with
  | false => simp [build, chdir, h3] at hs
  | true => simpa [build, chdir, h3, call] using hs

theorem install_cmds (env : Env) (dirs : Dirs) (s : String)
    (hs : s ∈ commandsOf (install env dirs).1) :
    s = "sudo make install" ∨ s = "sudo ldconfig" := by
  cases h3 : env.chdirOk dirs.build with
  | false => simp [install, chdir, h3] at hs
  | true => simpa [install, chdir, h3, call] using hs

theorem pipelineAfterGate_cmds (env : Env) (args : Args) (s : String)
    (hs : s ∈ commandsOf (pipelineAfterGate env args).1) :
    s = "git clone https://github.com/Itseez/opencv.git" ∨
    s = "git checkout tags/" ++ args.tag ∨ (∃ bo, s = cmake_call bo) ∨
    s = "make -j 3" ∨ s = "sudo make install" ∨ s = "sudo ldconfig" := by
  unfold pipelineAfterGate at hs
  cases hs1 : (download_source env args.tag (dirsOf env args.build_dir)).2 with
  | some o =>
    simp only [hs1] at hs
    have := download_source_cmds env args.tag (dirsOf env args.build_dir) s hs
    tauto
  | none =>
    simp only [hs1] at hs
    cases hs2 : (configure_build env args (dirsOf env args.build_dir)).2 with
    | some o =>
      simp only [hs2, commandsOf_append, List.mem_append] at hs
      rcases hs with hs | hs
      · have := download_source_cmds env args.tag (dirsOf env args.build_dir) s hs
        tauto
      · have := configure_build_cmds env args (dirsOf env args.build_dir) s hs
        tauto
    | none =>
      cases hs3 : (build env (dirsOf env args.build_dir)).2 with
      | some o =>
        simp only [hs2, hs3, commandsOf_append, List.mem_append] at hs
        rcases hs with (hs | hs) | hs
        · have := download_source_cmds env args.tag (dirsOf env args.build_dir) s hs
          tauto
        · have := configure_build_cmds env args (dirsOf env args.build_dir) s hs
          tauto
        · have := build_cmds env (dirsOf env args.build_dir) s hs
          tauto
      | none =>
        cases hs4 : (install env (dirsOf env args.build_dir)).2 with
        | some o =>
          simp only [hs2, hs3, hs4, commandsOf_append, List.mem_append] at hs
          rcases hs with ((hs | hs) | hs) | hs
          · have := download_source_cmds env args.tag (dirsOf env args.build_dir) s hs
            tauto
          · have := configure_build_cmds env args (dirsOf env args.build_dir) s hs
            tauto
          · have := build_cmds env (dirsOf env args.build_dir) s hs
            tauto
          · have := install_cmds env (dirsOf env args.build_dir) s hs
            tauto
        | none =>
          simp only [hs2, hs3, hs4, commandsOf_append, List.mem_append] at hs
          rcases hs with ((hs | hs) | hs) | hs
          · have := download_source_cmds env args.tag (dirsOf env args.build_dir) s hs
            tauto
          · have := configure_build_cmds env args (dirsOf env args.build_dir) s hs
            tauto
          · have := build_cmds env (dirsOf env args.build_dir) s hs
            tauto
          · have := install_cmds env (dirsOf env args.build_dir) s hs
            tauto

theorem install_opencv_cmds (env : Env) (args : Args) (s : String)
    (hs : s ∈ commandsOf (install_opencv env args).1) :
    s = "git clone https://github.com/Itseez/opencv.git" ∨
    s = "git checkout tags/" ++ args.tag ∨ (∃ bo, s = cmake_call bo) ∨
    s = "make -j 3" ∨ s = "sudo make install" ∨ s = "sudo ldconfig" := by
  unfold install_opencv at hs
  by_cases hf : args.force
  · simp only [hf, if_true, commandsOf_append, commandsOf_selectedOptionsMsgs,
               List.nil_append] at hs
    exact pipelineAfterGate_cmds env args s hs
  · simp only [hf, if_false, Bool.false_eq_true] at hs
    cases hg : (confirmationGate env.stdin).2 with
    | uncaught =>
      simp only [hg, commandsOf_append, commandsOf_selectedOptionsMsgs,
                 commandsOf_gate, List.append_nil, List.nil_append] at hs
      simp at hs
    | cleanAbort =>
      simp only [hg, commandsOf_append, commandsOf_selectedOptionsMsgs,
                 commandsOf_gate, List.append_nil, List.nil_append] at hs
      simp at hs
    | proceed =>
      simp only [hg, commandsOf_append, commandsOf_selectedOptionsMsgs,
                 commandsOf_gate, List.append_nil, List.nil_append] at hs
      exact pipelineAfterGate_cmds env args s hs

/-! ### Gate lemmas -/

theorem toLower_y_not_whitespace (c : Char) (hy : c.toLower = 'y') :
    c.isWhitespace = false := by
  cases hw : c.isWhitespace with
  | false => rfl
  | true =>
    exfalso
    have hcs : ((c = ' ' ∨ c = '\t') ∨ c = '\r') ∨ c = '\n' := by
      simpa [Char.isWhitespace] using hw
    rcases hcs with ((h | h) | h) | h <;> subst h <;> exact absurd hy (by decide)

theorem first_char_of_trimmed (line : String) (c : Char) (cs : List Char)
    (hdata : line.data = c :: cs) (hny : firstTrimmedLower line ≠ some 'y') :
    ¬ c.toLower = 'y' := by
  intro hy
  apply hny
  have hw := toLower_y_not_whitespace c hy
  simp [firstTrimmedLower, hdata, List.dropWhile_cons, hw, hy]

theorem gate_cleanAbort_of_not_y (line : String)
    (hny : firstTrimmedLower line ≠ some 'y') :
    (confirmationGate (some line)).2 = GateResult.cleanAbort := by
  cases hld : line.data with
  | nil => simp [confirmationGate, hld]
  | cons c cs =>
    have hc := first_char_of_trimmed line c cs hld hny
    simp [confirmationGate, hld, hc]

theorem install_opencv_cleanAbort (env : Env) (args : Args)
    (hf : args.force = false)
    (hg : (confirmationGate env.stdin).2 = GateResult.cleanAbort) :
    install_opencv env args =
      (selectedOptionsMsgs args ++ (confirmationGate env.stdin).1,
       Outcome.finished) := by
  simp [install_opencv, hf, hg]

theorem install_opencv_uncaughtGate (env : Env) (args : Args)
    (hf : args.force = false)
    (hg : (confirmationGate env.stdin).2 = GateResult.uncaught) :
    install_opencv env args =
      (selectedOptionsMsgs args ++ (confirmationGate env.stdin).1,
       Outcome.uncaught) := by
  simp [install_opencv, hf, hg]

theorem gate_some_cases (line : String) :
    (confirmationGate (some line)).2 = GateResult.proceed ∨
    (confirmationGate (some line)).2 = GateResult.cleanAbort := by
  cases hld : line.data with
  | nil => simp [confirmationGate, hld]
  | cons c cs =>
    by_cases hc : c.toLower = 'y' <;> simp [confirmationGate, hld, hc]

theorem gate_proceed_iff (line : String) (c : Char) (cs : List Char)
    (hld : line.data = c :: cs) :
    (confirmationGate (some line)).2 = GateResult.proceed ↔ c.toLower = 'y' := by
  by_cases hc : c.toLower = 'y' <;> simp [confirmationGate, hld, hc]

/-! ### Failure-path lemmas -/

theorem pipelineAfterGate_rootfail (env : Env) (args : Args)
    (h1 : env.chdirOk (dirsOf env args.build_dir).root = false) :
    pipelineAfterGate env args =
      ([Event.msg "Downloading source...",
        Event.cd (dirsOf env args.build_dir).root,
        Event.msg ("ERROR: Couldn\x27t chdir into "
                   ++ (dirsOf env args.build_dir).root ++ ". Exiting."),
        Event.msg tracebackText], Outcome.exited0) := by
  simp [pipelineAfterGate,
        download_source_rootfail env args.tag (dirsOf env args.build_dir) h1]

theorem install_opencv_commands_rootfail (env : Env) (args : Args)
    (h1 : env.chdirOk (dirsOf env args.build_dir).root = false) :
    commandsOf (install_opencv env args).1 = [] := by
  unfold install_opencv
  by_cases hf : args.force
  · simp [hf, pipelineAfterGate_rootfail env args h1]
  · cases hg : (confirmationGate env.stdin).2 with
    | uncaught => simp [hf, hg, commandsOf_gate]
    | cleanAbort => simp [hf, hg, commandsOf_gate]
    | proceed => simp [hf, hg, commandsOf_gate, pipelineAfterGate_rootfail env args h1]

/-! ### The prerequisite-installer commands versus the pipeline commands -/

theorem aptUpdate_data :
    "sudo apt-get update".data = 's' :: "udo apt-get update".data := rfl

theorem aptUpgrade_data :
    "sudo apt-get upgrade".data = 's' :: "udo apt-get upgrade".data := rfl

theorem aptInstall_data : ∃ l, aptInstallCmd.data = 's' :: l := ⟨_, rfl⟩

theorem commandsOf_install_prereqs :
    commandsOf install_prereqs =
      ["sudo apt-get update", "sudo apt-get upgrade", aptInstallCmd] := rfl

/-- No command the pipeline can ever issue coincides with a command of the
prerequisite installer. -/
theorem pipeline_cmd_ne_apt (s t : String)
    (hs : s = "git clone https://github.com/Itseez/opencv.git" ∨
          s = "git checkout tags/" ++ t ∨ (∃ bo, s = cmake_call bo) ∨
          s = "make -j 3" ∨ s = "sudo make install" ∨ s = "sudo ldconfig")
    (ht : s ∈ commandsOf install_prereqs) : False := by
  obtain ⟨li, hli⟩ := aptInstall_data
  rw [commandsOf_install_prereqs] at ht
  simp only [List.mem_cons, List.not_mem_nil, or_false] at ht
  rcases hs with h | h | ⟨bo, h⟩ | h | h | h <;> subst h <;>
    rcases ht with ht | ht | ht
  · exact absurd ht (by decide)
  · exact absurd ht (by decide)
  · exact absurd ht (by decide)
  · exact absurd ht (checkout_ne t _ 's' _ aptUpdate_data (by decide))
  · exact absurd ht (checkout_ne t _ 's' _ aptUpgrade_data (by decide))
  · exact absurd ht (checkout_ne t _ 's' li hli (by decide))
  · exact absurd ht (cmake_call_ne bo _ 's' _ aptUpdate_data (by decide))
  · exact absurd ht (cmake_call_ne bo _ 's' _ aptUpgrade_data (by decide))
  · exact absurd ht (cmake_call_ne bo _ 's' li hli (by decide))
  · exact absurd ht (by decide)
  · exact absurd ht (by decide)
  · exact absurd ht (by decide)
  · exact absurd ht (by decide)
  · exact absurd ht (by decide)
  · exact absurd ht (by decide)
  · exact absurd ht (by decide)
  · exact absurd ht (by decide)
  · exact absurd ht (by decide)

/-! ### Tokenization lemmas -/

theorem splitSp_ne_nil (l : List Char) : splitSp l ≠ [] := by
  induction l with
  | nil => simp [splitSp]
  | cons c cs ih =>
    cases hc : pyWhitespace c with
    | true => simp [splitSp, hc]
    | false =>
      cases hs : splitSp cs with
      | nil => exact absurd hs ih
      | cons w ws => simp [splitSp, hc, hs]

theorem splitSp_append_ws (xs ys : List Char) (sep : Char)
    (hsep : pyWhitespace sep = true) :
    splitSp (xs ++ sep :: ys) = splitSp xs ++ splitSp ys := by
  induction xs with
  | nil => simp [splitSp, hsep]
  | cons c cs ih =>
    cases hc : pyWhitespace c with
    | true => simp [splitSp, hc, ih]
    | false =>
      cases hs : splitSp cs with
      | nil => exact absurd hs (splitSp_ne_nil cs)
      | cons w ws =>
        have hs2 : splitSp (cs ++ sep :: ys) = w :: (ws ++ splitSp ys) := by
          rw [ih, hs, List.cons_append]
        simp [splitSp, hc, hs, hs2]

theorem splitSp_word (l : List Char) (hl : ∀ c ∈ l, pyWhitespace c = false) :
    splitSp l = [l] := by
  induction l with
  | nil => rfl
  | cons c cs ih =>
    have hc : pyWhitespace c = false := hl c (List.mem_cons_self c cs)
    have ih2 : splitSp cs = [cs] := ih (fun x hx => hl x (List.mem_cons_of_mem c hx))
    simp [splitSp, hc, ih2]

theorem wtokens_append_ws (xs ys : List Char) (sep : Char)
    (hsep : pyWhitespace sep = true) :
    wtokens (xs ++ sep :: ys) = wtokens xs ++ wtokens ys := by
  simp [wtokens, splitSp_append_ws xs ys sep hsep, List.filter_append]

theorem wtokens_word (l : List Char) (hne : l ≠ [])
    (hl : ∀ c ∈ l, pyWhitespace c = false) :
    wtokens l = [l] := by
  rw [wtokens, splitSp_word l hl]
  cases l with
  | nil => exact absurd rfl hne
  | cons c cs => rfl

theorem args_string_foldl (bo : List (String × String)) (acc : String) :
    bo.foldl (fun acc kv => acc ++ ("-D " ++ kv.1 ++ "=" ++ kv.2 ++ " ")) acc
      = acc ++ segJoin bo := by
  induction bo generalizing acc with
  | nil => simp [segJoin, String.append_empty]
  | cons kv r ih =>
    rw [List.foldl_cons, ih, segJoin]
    simp [seg, String.append_assoc]

theorem args_string_eq (bo : List (String × String)) :
    args_string bo = segJoin bo := by
  have h := args_string_foldl bo ""
  rwa [String.empty_append] at h

theorem word_ne_nil (k v : String) : k.data ++ '=' :: v.data ≠ [] := by
  cases hk : k.data <;> simp

theorem word_no_ws (k v : String) (hk : ∀ c ∈ k.data, pyWhitespace c = false)
    (hv : ∀ c ∈ v.data, pyWhitespace c = false) :
    ∀ c ∈ k.data ++ '=' :: v.data, pyWhitespace c = false := by
  intro c hc
  rcases List.mem_append.mp hc with h | h
  · exact hk c h
  · rcases List.mem_cons.mp h with h | h
    · subst h; decide
    · exact hv c h

theorem wtokens_segJoin (bo : List (String × String))
    (hns : ∀ kv ∈ bo, (∀ c ∈ kv.1.data, pyWhitespace c = false) ∧
      (∀ c ∈ kv.2.data, pyWhitespace c = false)) :
    wtokens ((segJoin bo).data ++ " ..".data)
      = (bo.map entryTokens).flatten ++ [['.', '.']] := by
  induction bo with
  | nil => rfl
  | cons kv r ih =>
    have hkv := hns kv (List.mem_cons_self kv r)
    have ihr := ih (fun x hx => hns x (List.mem_cons_of_mem kv hx))
    have hshape : (segJoin (kv :: r)).data ++ " ..".data
        = ['-', 'D'] ++ ' ' :: ((kv.1.data ++ '=' :: kv.2.data)
            ++ ' ' :: ((segJoin r).data ++ " ..".data)) := by
      simp [segJoin, seg, String.data_append,
            show "-D ".data = ['-', 'D', ' '] from rfl,
            show "=".data = ['='] from rfl,
            show " ".data = [' '] from rfl, List.append_assoc]
    rw [hshape, wtokens_append_ws _ _ ' ' (by decide),
        wtokens_append_ws _ _ ' ' (by decide),
        wtokens_word _ (word_ne_nil kv.1 kv.2) (word_no_ws kv.1 kv.2 hkv.1 hkv.2),
        ihr]
    simp [entryTokens, show wtokens ['-', 'D'] = [['-', 'D']] by decide]

theorem mk_key_val (k v : String) :
    String.mk (k.data ++ '=' :: v.data) = k ++ "=" ++ v := by
  cases k with
  | mk kd =>
    cases v with
    | mk vd =>
      show String.mk (kd ++ '=' :: vd) = String.mk ((kd ++ "=".data) ++ vd)
      exact congrArg String.mk (by simp)

/-! ### The claims -/

/-- C1: for the configuration tag "4.0.0", force set, build dir "/tmp/x",
empty build-options file, prerequisite installation disabled, and with
every directory change succeeding and the build-directory creation not
failing, the program prints exactly the clone command, the checkout command
for tag 4.0.0, the cmake invocation with the seven default -D flags in the
built-in order, "make -j 3", "sudo make install" and "sudo ldconfig", in
this order, and never prints a confirmation prompt. -/
theorem c1_end_to_end_commands (env : Env)
    (h1 : env.chdirOk (dirsOf env "/tmp/x").root = true)
    (h2 : env.chdirOk (dirsOf env "/tmp/x").opencv = true)
    (h3 : env.chdirOk (dirsOf env "/tmp/x").build = true)
    (hmk : env.mkdirResult (dirsOf env "/tmp/x").build ≠ MkdirRes.fail) :
    commandsOf (runProgram env ⟨some "4.0.0", true, some "/tmp/x", true, some ""⟩).1 =
      ["git clone https://github.com/Itseez/opencv.git",
       "git checkout tags/4.0.0", cmake_call DEFAULT_BUILD_OPTIONS,
       "make -j 3", "sudo make install", "sudo ldconfig"] ∧
    (∀ s, Event.prompt s ∉
      (runProgram env ⟨some "4.0.0", true, some "/tmp/x", true, some ""⟩).1) := by
  have hbo : load_build_options env "" = some DEFAULT_BUILD_OPTIONS := by
    simp [load_build_options, os_path_exists]
  have hio := install_opencv_happy env ⟨"4.0.0", true, "/tmp/x", false, ""⟩
    DEFAULT_BUILD_OPTIONS rfl h1 h2 h3 hmk hbo
  constructor
  · simp only [runProgram]
    rw [show parse_command_line_args env.cwd
          ⟨some "4.0.0", true, some "/tmp/x", true, some ""⟩
        = ⟨"4.0.0", true, "/tmp/x", false, ""⟩ from rfl, hio]
    simp [commandsOf_happyTrace]
  · intro s
    simp only [runProgram]
    rw [show parse_command_line_args env.cwd
          ⟨some "4.0.0", true, some "/tmp/x", true, some ""⟩
        = ⟨"4.0.0", true, "/tmp/x", false, ""⟩ from rfl, hio]
    simp [happyTrace, selectedOptionsMsgs, buildOptionsMsgs, DEFAULT_BUILD_OPTIONS]

/-- Witness for C1 at the concrete all-succeeding environment. -/
theorem c1_end_to_end_commands_witness :
    commandsOf (runProgram testEnv ⟨some "4.0.0", true, some "/tmp/x", true, some ""⟩).1 =
      ["git clone https://github.com/Itseez/opencv.git",
       "git checkout tags/4.0.0", cmake_call DEFAULT_BUILD_OPTIONS,
       "make -j 3", "sudo make install", "sudo ldconfig"] :=
  (c1_end_to_end_commands testEnv rfl rfl rfl (by decide)).1

/-- C2 counterexample: a failed input read does not end in a clean
status-0 abort as the claim states: the process dies of an uncaught
exception with non-zero status (the `input()` call sits outside the `try`
block).  Moreover the code never trims the line: on the input " y" the
claim (formalised as `gateSpecC2`) says the gate proceeds, while the code
aborts. -/
theorem c2_counterexample :
    (runProgram testEnv ⟨none, false, none, true, none⟩).2 = Outcome.uncaught ∧
    exitStatus (runProgram testEnv ⟨none, false, none, true, none⟩).2 ≠ 0 ∧
    (confirmationGate (some " y")).2 = GateResult.cleanAbort ∧
    gateSpecC2 (some " y") = GateResult.proceed ∧
    gateSpecC2 none = GateResult.cleanAbort := by
  refine ⟨by decide, by decide, by decide, by decide, by decide⟩

/-- C2 (amended): when force is false the gate proceeds if and only if the
first character of the raw (untrimmed) input line, lower-cased, equals the
letter y; every other successfully read line (including the empty line)
makes the run return early with no command issued and exit status 0; a
failed input read ends the process with an uncaught exception and a
non-zero status. -/
theorem c2_gate_amended (env : Env) (args : Args) (hf : args.force = false) :
    (∀ line c cs, env.stdin = some line → line.data = c :: cs →
        ((confirmationGate env.stdin).2 = GateResult.proceed ↔ c.toLower = 'y')) ∧
    (∀ line, env.stdin = some line →
        (confirmationGate env.stdin).2 ≠ GateResult.proceed →
        (install_opencv env args).2 = Outcome.finished ∧
        exitStatus (install_opencv env args).2 = 0 ∧
        commandsOf (install_opencv env args).1 = []) ∧
    (env.stdin = none →
        (install_opencv env args).2 = Outcome.uncaught ∧
        exitStatus (install_opencv env args).2 ≠ 0) := by
  refine ⟨?_, ?_, ?_⟩
  · intro line c cs hst hld
    rw [hst]
    exact gate_proceed_iff line c cs hld
  · intro line hst hnp
    have hca : (confirmationGate env.stdin).2 = GateResult.cleanAbort := by
      rw [hst] at hnp ⊢
      rcases gate_some_cases line with h | h
      · exact absurd h hnp
      · exact h
    have hio := install_opencv_cleanAbort env args hf hca
    refine ⟨by rw [hio], by rw [hio]; rfl, by rw [hio]; simp [commandsOf_gate]⟩
  · intro hst
    have hug : (confirmationGate env.stdin).2 = GateResult.uncaught := by
      rw [hst]; rfl
    have hio := install_opencv_uncaughtGate env args hf hug
    exact ⟨by rw [hio], by rw [hio]; exact Nat.one_ne_zero⟩

/-- Witness for the amended C2: on the concrete input "no" the run aborts
cleanly. -/
theorem c2_gate_amended_witness :
    (install_opencv { testEnv with stdin := some "no" }
        ⟨"3.3.1", false, "/w", false, ""⟩).2 = Outcome.finished :=
  (((c2_gate_amended { testEnv with stdin := some "no" }
      ⟨"3.3.1", false, "/w", false, ""⟩ rfl).2).1 "no" rfl (by decide)).1

/-- C3 counterexample: with the default configuration (prerequisite
installation enabled) and the declining gate input "n", the program has
already issued the three package-manager commands before the gate, so the
claim that zero filesystem or network mutation happens before the gate for
every configuration is false. -/
theorem c3_counterexample :
    firstTrimmedLower "n" ≠ some 'y' ∧
    commandsOf (runProgram { testEnv with stdin := some "n" }
        ⟨none, false, none, false, none⟩).1 ≠ [] ∧
    "sudo apt-get update" ∈ commandsOf (runProgram { testEnv with stdin := some "n" }
        ⟨none, false, none, false, none⟩).1 := by
  refine ⟨by decide, by decide, by decide⟩

/-- C3 (amended): for every configuration and every gate input whose first
trimmed character (case-insensitive) is not the letter y, the run issues no
command other than the package-manager commands of the prerequisite
installer (which run before the gate exactly when prerequisite installation
is enabled — with it disabled the run issues no command at all), returns
without invoking any stage after the gate, and finishes with outcome
`finished` (exit status 0). -/
theorem c3_gate_abort_amended (env : Env) (cl : CmdLine) (line : String)
    (hf : cl.forceFlag = false) (hst : env.stdin = some line)
    (hny : firstTrimmedLower line ≠ some 'y') :
    commandsOf (runProgram env cl).1 =
      (if (parse_command_line_args env.cwd cl).prereqs then
        ["sudo apt-get update", "sudo apt-get upgrade", aptInstallCmd] else []) ∧
    (runProgram env cl).2 = Outcome.finished := by
  have hca : (confirmationGate env.stdin).2 = GateResult.cleanAbort := by
    rw [hst]
    exact gate_cleanAbort_of_not_y line hny
  have hio := install_opencv_cleanAbort env (parse_command_line_args env.cwd cl) hf hca
  constructor
  · by_cases hp : (parse_command_line_args env.cwd cl).prereqs <;>
      simp [runProgram, hp, hio, commandsOf_gate, commandsOf_install_prereqs]
  · simp [runProgram, hio]

/-- Witness for the amended C3 at the concrete declining input "n". -/
theorem c3_gate_abort_amended_witness :
    (runProgram { testEnv with stdin := some "n" }
        ⟨none, false, none, false, none⟩).2 = Outcome.finished :=
  (c3_gate_abort_amended { testEnv with stdin := some "n" }
    ⟨none, false, none, false, none⟩ "n" rfl rfl (by decide)).2

/-- C4 counterexample: on the diagnosed-fatal path (failed directory
change) the process terminates through the bare `sys.exit()` with exit
status 0, not with a non-zero failure status as the claim states. -/
theorem c4_counterexample :
    (runProgram { testEnv with chdirOk := fun _ => false }
        ⟨none, true, some "/tmp/x", true, none⟩).2 = Outcome.exited0 ∧
    exitStatus (runProgram { testEnv with chdirOk := fun _ => false }
        ⟨none, true, some "/tmp/x", true, none⟩).2 = 0 ∧
    Event.msg "ERROR: Couldn\x27t chdir into /tmp/x. Exiting." ∈
      (runProgram { testEnv with chdirOk := fun _ => false }
        ⟨none, true, some "/tmp/x", true, none⟩).1 := by
  refine ⟨by decide, by decide, by decide⟩

/-- C4 (amended): on the two diagnosed-fatal paths (a failed directory
change, and a build-directory creation failure other than already-exists)
the program prints a human-readable message plus the error detail and
terminates the whole process via a bare `sys.exit()`, which yields exit
status 0 — not a non-zero status; and every completion other than an
uncaught-exception termination also has exit status 0. -/
theorem c4_fatal_paths_amended (env : Env) (args : Args) :
    (args.force = true → env.chdirOk (dirsOf env args.build_dir).root = false →
       (install_opencv env args).2 = Outcome.exited0 ∧
       exitStatus (install_opencv env args).2 = 0 ∧
       Event.msg ("ERROR: Couldn\x27t chdir into "
                  ++ (dirsOf env args.build_dir).root ++ ". Exiting.")
         ∈ (install_opencv env args).1 ∧
       Event.msg tracebackText ∈ (install_opencv env args).1) ∧
    (args.force = true → env.chdirOk (dirsOf env args.build_dir).root = true →
     env.chdirOk (dirsOf env args.build_dir).opencv = true →
     env.mkdirResult (dirsOf env args.build_dir).build = MkdirRes.fail →
       (install_opencv env args).2 = Outcome.exited0 ∧
       exitStatus (install_opencv env args).2 = 0 ∧
       Event.msg "ERROR: Couldn\x27t create the build directory. Exiting."
         ∈ (install_opencv env args).1) ∧
    ((install_opencv env args).2 ≠ Outcome.uncaught →
       exitStatus (install_opencv env args).2 = 0) := by
  refine ⟨?_, ?_, ?_⟩
  · intro hforce hroot
    have hio : install_opencv env args =
        (selectedOptionsMsgs args ++
          [Event.msg "Downloading source...",
           Event.cd (dirsOf env args.build_dir).root,
           Event.msg ("ERROR: Couldn\x27t chdir into "
                      ++ (dirsOf env args.build_dir).root ++ ". Exiting."),
           Event.msg tracebackText], Outcome.exited0) := by
      simp [install_opencv, hforce, pipelineAfterGate_rootfail env args hroot]
    refine ⟨by rw [hio], by rw [hio]; rfl, by rw [hio]; simp, by rw [hio]; simp⟩
  · intro hforce h1 h2 hmk
    have hpipe : pipelineAfterGate env args =
        ([Event.msg "Downloading source...",
          Event.cd (dirsOf env args.build_dir).root,
          Event.cmd "git clone https://github.com/Itseez/opencv.git",
          Event.cd (dirsOf env args.build_dir).opencv,
          Event.cmd ("git checkout tags/" ++ args.tag),
          Event.cd (dirsOf env args.build_dir).root] ++
         [Event.msg "ERROR: Couldn\x27t create the build directory. Exiting.",
          Event.msg tracebackText], Outcome.exited0) := by
      simp [pipelineAfterGate,
            download_source_ok env args.tag (dirsOf env args.build_dir) h1 h2,
            configure_build_mkfail env args (dirsOf env args.build_dir) hmk]
    have hio : install_opencv env args =
        (selectedOptionsMsgs args ++ (pipelineAfterGate env args).1,
         Outcome.exited0) := by
      simp [install_opencv, hforce, hpipe]
    refine ⟨by rw [hio], by rw [hio]; rfl, ?_⟩
    rw [hio, hpipe]
    simp
  · intro h
    cases ho : (install_opencv env args).2 with
    | finished => rfl
    | exited0 => rfl
    | uncaught => exact absurd ho h

/-- Witness for the amended C4: the concrete failed-chdir run exits with
status 0. -/
theorem c4_fatal_paths_amended_witness :
    exitStatus (install_opencv { testEnv with chdirOk := fun _ => false }
        ⟨"3.3.1", true, "/tmp/x", false, ""⟩).2 = 0 :=
  ((c4_fatal_paths_amended { testEnv with chdirOk := fun _ => false }
      ⟨"3.3.1", true, "/tmp/x", false, ""⟩).1 rfl rfl).2.1

/-- C5: a nonexistent build-options file path (including the default empty
string) and an existing file whose loaded mapping is empty both make the
Build Configurer use exactly the built-in default option set, and the
effective option set is never empty. -/
theorem c5_default_options (env : Env) (f : String) :
    (os_path_exists env f = false →
       load_build_options env f = some DEFAULT_BUILD_OPTIONS) ∧
    (os_path_exists env f = true → env.fileJson f = some [] →
       load_build_options env f = some DEFAULT_BUILD_OPTIONS) ∧
    load_build_options env "" = some DEFAULT_BUILD_OPTIONS ∧
    (∀ bo, load_build_options env f = some bo → bo ≠ []) := by
  refine ⟨?_, ?_, ?_, ?_⟩
  · intro h
    simp [load_build_options, h]
  · intro h hj
    simp [load_build_options, h, hj]
  · simp [load_build_options, os_path_exists]
  · intro bo hbo
    simp only [load_build_options] at hbo
    by_cases h : os_path_exists env f
    · rw [if_pos h] at hbo
      cases hj : env.fileJson f with
      | none => simp [hj] at hbo
      | some m =>
        simp only [hj] at hbo
        by_cases hm : m.length = 0
        · rw [if_pos hm] at hbo
          injection hbo with h2
          rw [← h2]
          decide
        · rw [if_neg hm] at hbo
          injection hbo with h2
          rw [← h2]
          intro hnil
          rw [hnil] at hm
          exact hm rfl
    · rw [if_neg h] at hbo
      injection hbo with h2
      rw [← h2]
      decide

/-- Witness for C5 at a concrete nonexistent path. -/
theorem c5_default_options_witness :
    load_build_options testEnv "absent.json" = some DEFAULT_BUILD_OPTIONS :=
  (c5_default_options testEnv "absent.json").1 rfl

/-- C6 counterexample: option values are passed through verbatim, so a
value containing a tab (reachable through a JSON options file) is split by
`command.split()` inside `call` into extra argv tokens: for the one-entry
mapping K ↦ "a\tb" the invocation tokenizes as
["cmake", "-D", "K=a", "b", ".."], not as one "-D key=value" token pair
per entry as the claim states. -/
theorem c6_counterexample :
    pyTokens (cmake_call [("K", "a\tb")]) ≠
      "cmake" :: (([(("K" : String), ("a\tb" : String))].map
        (fun kv => ["-D", kv.1 ++ "=" ++ kv.2])).flatten ++ [".."]) ∧
    pyTokens (cmake_call [("K", "a\tb")]) = ["cmake", "-D", "K=a", "b", ".."] := by
  refine ⟨by decide, by decide⟩

/-- C6 (amended): for every non-empty build-option mapping whose keys and
values contain no character Python treats as whitespace (arbitrary strings
are passed through verbatim, so whitespace inside them produces extra
tokens), the whitespace tokenization of the generator invocation is
exactly "cmake" followed by one "-D" / "key=value" token pair per mapping
entry, in the mapping's order, followed by the parent-directory source
directive "..". -/
theorem c6_generator_tokens (build_options : List (String × String))
    (_hne : build_options ≠ [])
    (hns : ∀ kv ∈ build_options,
      (∀ c ∈ kv.1.data, pyWhitespace c = false) ∧
      (∀ c ∈ kv.2.data, pyWhitespace c = false)) :
    pyTokens (cmake_call build_options) =
      "cmake" :: ((build_options.map (fun kv => ["-D", kv.1 ++ "=" ++ kv.2])).flatten
        ++ [".."]) := by
  have hshape : (cmake_call build_options).data
      = "cmake".data ++ ' ' :: ((segJoin build_options).data ++ " ..".data) := by
    show (("cmake " ++ args_string build_options) ++ " ..").data = _
    rw [args_string_eq, String.data_append, String.data_append,
        show "cmake ".data = "cmake".data ++ [' '] from rfl]
    simp [List.append_assoc]
  rw [pyTokens, hshape, wtokens_append_ws _ _ ' ' (by decide),
      show wtokens "cmake".data = ["cmake".data] by decide,
      wtokens_segJoin build_options hns]
  have hfun : (List.map (fun w : List Char => String.mk w)) ∘ entryTokens
      = fun kv : String × String => ["-D", kv.1 ++ "=" ++ kv.2] := by
    funext kv
    show [String.mk ['-', 'D'], String.mk (kv.1.data ++ '=' :: kv.2.data)]
        = ["-D", kv.1 ++ "=" ++ kv.2]
    rw [mk_key_val]
  rw [List.map_append, List.map_append, List.map_flatten, List.map_map, hfun]
  rfl

/-- Witness for the amended C6 at a concrete one-entry mapping. -/
theorem c6_generator_tokens_witness :
    pyTokens (cmake_call [("CMAKE_BUILD_TYPE", "RELEASE")]) =
      ["cmake", "-D", "CMAKE_BUILD_TYPE=RELEASE", ".."] := by
  rw [c6_generator_tokens [("CMAKE_BUILD_TYPE", "RELEASE")] (by decide) (by decide)]
  rfl

/-- C7 counterexample: for the supplied buildDir "/" (whose canonical path
is "/" and ends with the separator), `os.path.join` does not insert a
second separator, so the claimed string identity
sourceDir == root + "/opencv" fails: the source dir is "/opencv" while the
claimed value would be "//opencv". -/
theorem c7_root_counterexample :
    (dirsOf testEnv "/").opencv ≠ (dirsOf testEnv "/").root ++ "/opencv" ∧
    (dirsOf testEnv "/").root = "/" ∧
    (dirsOf testEnv "/").opencv = "/opencv" := by
  refine ⟨by decide, by decide, by decide⟩

/-- C7 (amended): for every supplied buildDir whose canonical
(`os.path.realpath`) form is non-empty and does not end with the path
separator — i.e. every directory other than the filesystem root — the
three derived paths satisfy buildDirPath == sourceDir + "/build" and
sourceDir == root + "/opencv"; and in a fully successful forced run they
are computed once and are the only directory-change targets every
subsequent stage uses, in the fixed order
root, opencv, root, build, build, build. -/
theorem c7_directory_invariants_amended (env : Env) (bd : String)
    (hne : env.realpath bd ≠ "")
    (hsl : endsWithSlash (env.realpath bd) = false) :
    (dirsOf env bd).root = env.realpath bd ∧
    (dirsOf env bd).opencv = (dirsOf env bd).root ++ "/opencv" ∧
    (dirsOf env bd).build = (dirsOf env bd).opencv ++ "/build" ∧
    (∀ (args : Args) (bo : List (String × String)),
       args.build_dir = bd → args.force = true →
       env.chdirOk (dirsOf env bd).root = true →
       env.chdirOk (dirsOf env bd).opencv = true →
       env.chdirOk (dirsOf env bd).build = true →
       env.mkdirResult (dirsOf env bd).build ≠ MkdirRes.fail →
       load_build_options env args.build_options_file = some bo →
       cdTargetsOf (install_opencv env args).1 =
         [(dirsOf env bd).root, (dirsOf env bd).opencv, (dirsOf env bd).root,
          (dirsOf env bd).build, (dirsOf env bd).build,
          (dirsOf env bd).build]) := by
  have hop : pathJoin (env.realpath bd) "opencv" = env.realpath bd ++ "/opencv" := by
    rw [pathJoin, if_neg hne, if_neg (by simp [hsl]), String.append_assoc]
    rfl
  have hopne : env.realpath bd ++ "/opencv" ≠ "" := by
    intro h
    have h2 := congrArg String.data h
    rw [String.data_append] at h2
    simp at h2
  have hopsl : endsWithSlash (env.realpath bd ++ "/opencv") = false := by
    simp [endsWithSlash, String.data_append]
  have hbu : pathJoin (pathJoin (env.realpath bd) "opencv") "build"
      = (env.realpath bd ++ "/opencv") ++ "/build" := by
    rw [hop, pathJoin, if_neg hopne, if_neg (by simp [hopsl]), String.append_assoc]
    rfl
  refine ⟨rfl, ?_, ?_, ?_⟩
  · show pathJoin (env.realpath bd) "opencv" = env.realpath bd ++ "/opencv"
    exact hop
  · show pathJoin (pathJoin (env.realpath bd) "opencv") "build"
        = pathJoin (env.realpath bd) "opencv" ++ "/build"
    rw [hbu, hop]
  · intro args bo hbd hforce h1 h2 h3 hmk hbo
    subst hbd
    rw [install_opencv_happy env args bo hforce h1 h2 h3 hmk hbo]
    simp [cdTargetsOf_happyTrace]

/-- Witness for the amended C7 at a concrete non-root build directory. -/
theorem c7_directory_invariants_amended_witness :
    (dirsOf testEnv "/tmp/x").opencv = (dirsOf testEnv "/tmp/x").root ++ "/opencv" :=
  (c7_directory_invariants_amended testEnv "/tmp/x" (by decide) (by decide)).2.1

/-- A command of one of the six shapes the pipeline can issue is never a
member of the prerequisite-installer command list (or the empty list). -/
theorem shape_not_mem_apt (s t : String) (l : List String)
    (hs : s = "git clone https://github.com/Itseez/opencv.git" ∨
          s = "git checkout tags/" ++ t ∨ (∃ bo, s = cmake_call bo) ∨
          s = "make -j 3" ∨ s = "sudo make install" ∨ s = "sudo ldconfig")
    (hl : l = ["sudo apt-get update", "sudo apt-get upgrade", aptInstallCmd] ∨
          l = []) :
    s ∉ l := by
  intro hmem
  rcases hl with h | h
  · subst h
    exact pipeline_cmd_ne_apt s t hs (by rw [commandsOf_install_prereqs]; exact hmem)
  · subst h
    simp at hmem

/-- C8: when the attempted directory change into the root directory fails,
the run issues no pipeline command at all (only the prerequisite-installer
commands when those are enabled); in particular none of the clone,
checkout, generator, build, install or linker-refresh command lines is
printed or executed. -/
theorem c8_rootfail_no_pipeline_commands (env : Env) (cl : CmdLine)
    (h : env.chdirOk
      (dirsOf env (parse_command_line_args env.cwd cl).build_dir).root = false) :
    commandsOf (runProgram env cl).1 =
      (if (parse_command_line_args env.cwd cl).prereqs then
        ["sudo apt-get update", "sudo apt-get upgrade", aptInstallCmd] else []) ∧
    "git clone https://github.com/Itseez/opencv.git" ∉ commandsOf (runProgram env cl).1 ∧
    ("git checkout tags/" ++ (parse_command_line_args env.cwd cl).tag)
      ∉ commandsOf (runProgram env cl).1 ∧
    (∀ bo, cmake_call bo ∉ commandsOf (runProgram env cl).1) ∧
    "make -j 3" ∉ commandsOf (runProgram env cl).1 ∧
    "sudo make install" ∉ commandsOf (runProgram env cl).1 ∧
    "sudo ldconfig" ∉ commandsOf (runProgram env cl).1 := by
  have hcmds : commandsOf (runProgram env cl).1 =
      (if (parse_command_line_args env.cwd cl).prereqs then
        ["sudo apt-get update", "sudo apt-get upgrade", aptInstallCmd] else []) := by
    by_cases hp : (parse_command_line_args env.cwd cl).prereqs <;>
      simp [runProgram, hp,
            install_opencv_commands_rootfail env (parse_command_line_args env.cwd cl) h,
            commandsOf_install_prereqs]
  have hif : (if (parse_command_line_args env.cwd cl).prereqs then
        ["sudo apt-get update", "sudo apt-get upgrade", aptInstallCmd] else [])
      = ["sudo apt-get update", "sudo apt-get upgrade", aptInstallCmd] ∨
      (if (parse_command_line_args env.cwd cl).prereqs then
        ["sudo apt-get update", "sudo apt-get upgrade", aptInstallCmd] else [])
      = ([] : List String) := by
    by_cases hp : (parse_command_line_args env.cwd cl).prereqs <;> simp [hp]
  refine ⟨hcmds, ?_, ?_, ?_, ?_, ?_, ?_⟩
  · rw [hcmds]
    exact shape_not_mem_apt _ "x" _ (Or.inl rfl) hif
  · rw [hcmds]
    exact shape_not_mem_apt _ _ _ (Or.inr (Or.inl rfl)) hif
  · intro bo
    rw [hcmds]
    exact shape_not_mem_apt _ "x" _ (Or.inr (Or.inr (Or.inl ⟨bo, rfl⟩))) hif
  · rw [hcmds]
    exact shape_not_mem_apt _ "x" _ (Or.inr (Or.inr (Or.inr (Or.inl rfl)))) hif
  · rw [hcmds]
    exact shape_not_mem_apt _ "x" _
      (Or.inr (Or.inr (Or.inr (Or.inr (Or.inl rfl))))) hif
  · rw [hcmds]
    exact shape_not_mem_apt _ "x" _
      (Or.inr (Or.inr (Or.inr (Or.inr (Or.inr rfl))))) hif

/-- Witness for C8 at a concrete environment where every chdir fails. -/
theorem c8_rootfail_no_pipeline_commands_witness :
    commandsOf (runProgram { testEnv with chdirOk := fun _ => false }
        ⟨none, false, none, false, none⟩).1 =
      (if (parse_command_line_args
            ({ testEnv with chdirOk := fun _ => false} : Env).cwd
            ⟨none, false, none, false, none⟩).prereqs then
        ["sudo apt-get update", "sudo apt-get upgrade", aptInstallCmd] else []) :=
  (c8_rootfail_no_pipeline_commands { testEnv with chdirOk := fun _ => false }
    ⟨none, false, none, false, none⟩ rfl).1

/-- C9: the option resolver defaults are exactly tag "3.3.1", force false,
buildDir the current working directory, buildOptionsFile the empty string,
and prereqs true with store_false semantics (passing the flag makes it
false); and the prerequisite installer runs — i.e. its first command
appears in the run trace — exactly when the flag was absent. -/
theorem c9_option_resolver_defaults (cwd : String) (cl : CmdLine) (env : Env) :
    parse_command_line_args cwd ⟨none, false, none, false, none⟩ =
      { tag := "3.3.1", force := false, build_dir := cwd, prereqs := true,
        build_options_file := "" } ∧
    (parse_command_line_args cwd cl).tag = cl.tagOpt.getD "3.3.1" ∧
    (parse_command_line_args cwd cl).force = cl.forceFlag ∧
    (parse_command_line_args cwd cl).build_dir = cl.buildDirOpt.getD cwd ∧
    (parse_command_line_args cwd cl).build_options_file
      = cl.buildOptionsFileOpt.getD "" ∧
    (parse_command_line_args cwd cl).prereqs = !cl.prereqsFlag ∧
    ("sudo apt-get update" ∈ commandsOf (runProgram env cl).1 ↔
       (parse_command_line_args env.cwd cl).prereqs = true) := by
  refine ⟨rfl, rfl, rfl, rfl, rfl, rfl, ?_, ?_⟩
  · intro hmem
    cases hp : (parse_command_line_args env.cwd cl).prereqs with
    | true => rfl
    | false =>
      exfalso
      simp only [runProgram, hp, if_false, Bool.false_eq_true, List.nil_append] at hmem
      have hshape := install_opencv_cmds env (parse_command_line_args env.cwd cl)
        "sudo apt-get update" hmem
      exact pipeline_cmd_ne_apt "sudo apt-get update"
        (parse_command_line_args env.cwd cl).tag hshape
        (by rw [commandsOf_install_prereqs]; simp)
  · intro hp
    simp [runProgram, hp, commandsOf_install_prereqs]

/-- C10: when the build-options file exists but its contents are not valid
JSON, the process dies of an uncaught exception (non-zero exit status,
neither the diagnosed-fatal `sys.exit` path nor a silent one), and no
generator invocation is ever issued: the commands stop after clone and
checkout. -/
theorem c10_invalid_json_uncaught (env : Env) (args : Args)
    (hforce : args.force = true)
    (h1 : env.chdirOk (dirsOf env args.build_dir).root = true)
    (h2 : env.chdirOk (dirsOf env args.build_dir).opencv = true)
    (h3 : env.chdirOk (dirsOf env args.build_dir).build = true)
    (hmk : env.mkdirResult (dirsOf env args.build_dir).build ≠ MkdirRes.fail)
    (hex : os_path_exists env args.build_options_file = true)
    (hj : env.fileJson args.build_options_file = none) :
    (install_opencv env args).2 = Outcome.uncaught ∧
    exitStatus (install_opencv env args).2 ≠ 0 ∧
    commandsOf (install_opencv env args).1 =
      ["git clone https://github.com/Itseez/opencv.git",
       "git checkout tags/" ++ args.tag] ∧
    (∀ bo, cmake_call bo ∉ commandsOf (install_opencv env args).1) := by
  have hload : load_build_options env args.build_options_file = none := by
    simp [load_build_options, hex, hj]
  have hpipe : pipelineAfterGate env args =
      ([Event.msg "Downloading source...",
        Event.cd (dirsOf env args.build_dir).root,
        Event.cmd "git clone https://github.com/Itseez/opencv.git",
        Event.cd (dirsOf env args.build_dir).opencv,
        Event.cmd ("git checkout tags/" ++ args.tag),
        Event.cd (dirsOf env args.build_dir).root] ++
       [Event.cd (dirsOf env args.build_dir).build], Outcome.uncaught) := by
    simp [pipelineAfterGate,
          download_source_ok env args.tag (dirsOf env args.build_dir) h1 h2,
          configure_build_badjson env args (dirsOf env args.build_dir) hmk h3 hload]
  have hio : install_opencv env args =
      (selectedOptionsMsgs args ++ (pipelineAfterGate env args).1,
       Outcome.uncaught) := by
    simp [install_opencv, hforce, hpipe]
  have hcmds : commandsOf (install_opencv env args).1 =
      ["git clone https://github.com/Itseez/opencv.git",
       "git checkout tags/" ++ args.tag] := by
    rw [hio, hpipe]
    simp
  refine ⟨by rw [hio], by rw [hio]; exact Nat.one_ne_zero, hcmds, ?_⟩
  intro bo hmem
  rw [hcmds] at hmem
  rcases List.mem_cons.mp hmem with h | h
  · exact cmake_call_ne bo _ 'g' _
      (show ("git clone https://github.com/Itseez/opencv.git").data
          = 'g' :: "it clone https://github.com/Itseez/opencv.git".data from rfl)
      (by decide) h
  · rcases List.mem_cons.mp h with h | h
    · exact cmake_call_ne bo _ 'g' _ (checkout_data args.tag) (by decide) h
    · simp at h

/-- Witness for C10 at a concrete environment whose options file exists
but holds invalid JSON. -/
theorem c10_invalid_json_uncaught_witness :
    (install_opencv { testEnv with fileExists := fun _ => true }
        ⟨"3.3.1", true, "/w", false, "bad.json"⟩).2 = Outcome.uncaught :=
  (c10_invalid_json_uncaught { testEnv with fileExists := fun _ => true }
    ⟨"3.3.1", true, "/w", false, "bad.json"⟩ rfl rfl rfl rfl (by decide)
    (by decide) rfl).1

end InstallOpencv
